import Mathlib

/-!
# Verification of the Cloudflare Worker action-dispatch proxy

Shallow embedding of `src/cloudflare-worker/worker.js`, the rate-limited
proxy for GitHub `repository_dispatch`.  Time is modelled by rationals
(`Date.now() / 1000` yields fractional seconds), the Cache-API cooldown
store by a function from action names to optional timestamps, and the
single outbound `fetch` to the GitHub API by an oracle giving the status
and body the upstream would answer with if called.  The handler is a pure
function from the request, the environment token, the store state, the
clock and the upstream oracle to a response, the new store state and two
effect flags (whether the store was read, whether upstream was called).
-/

namespace Vaillant

/-- `const REPO = 'konradmakosa/vaillant'` — the upstream repository slug. -/
def REPO : String := "konradmakosa/vaillant"

/-- `const CORS = { 'Content-Type': ..., 'Access-Control-Allow-Origin': '*' }`. -/
def CORS : List (String × String) :=
  [("Content-Type", "application/json"), ("Access-Control-Allow-Origin", "*")]

/-- `const ACTIONS = { 'log-data': { cooldown: 600 }, 'boost-dhw': { cooldown: 60 } }`. -/
def ACTIONS : List (String × ℚ) :=
  [("log-data", 600), ("boost-dhw", 60)]

/-- `ACTIONS[a]` — lookup of an action's cooldown configuration. -/
def lookupCooldown (a : String) : Option ℚ :=
  (ACTIONS.find? (fun p => p.1 == a)).map Prod.snd

/-- JS truthiness test `!token` on `env.GITHUB_TOKEN`: the token is falsy
when the variable is unset or set to the empty string. -/
def tokenFalsy : Option String → Bool
  | none => true
  | some s => s == ""

/-- An inbound request: its HTTP method, and the outcome of `request.json()`:
`none` when parsing throws (missing body or invalid JSON), `some act` when it
yields an object whose `action` field is `act` (`none` when absent). -/
structure Request where
  method : String
  body : Option (Option String)

/-- Lines 37–43 as intended: `action` starts as `'log-data'` and is
replaced by `body.action` only when that field is truthy and an own key
of the configured `ACTIONS` table.  This is the resolution the rest of
the development quantifies over; `resolveActionJS` below additionally
reflects the prototype-chain fallback of the JavaScript property lookup,
on which the two differ. -/
def resolveAction (body : Option (Option String)) : String :=
  match body with
  | some (some a) => if a != "" && (lookupCooldown a).isSome then a else "log-data"
  | _ => "log-data"

/-- The property names every plain object literal inherits from
`Object.prototype`; each holds a truthy value (a function, or for
`__proto__` an object). -/
def objectPrototypeKeys : List String :=
  ["constructor", "hasOwnProperty", "isPrototypeOf", "propertyIsEnumerable",
   "toLocaleString", "toString", "valueOf", "__proto__",
   "__defineGetter__", "__defineSetter__", "__lookupGetter__", "__lookupSetter__"]

/-- JS truthiness of the property access `ACTIONS[a]` (line 40): an
ordinary property access on an object literal also finds the properties
inherited from `Object.prototype`, so it is truthy both for the object's
own keys and for the inherited names. -/
def actionsLookupTruthy (a : String) : Bool :=
  (lookupCooldown a).isSome || objectPrototypeKeys.contains a

/-- Lines 37–43 with full ECMAScript property-lookup semantics:
`body.action && ACTIONS[body.action]` is truthy for inherited
`Object.prototype` names such as `"toString"` as well, so those are
accepted as the action instead of resolving to the default. -/
def resolveActionJS (body : Option (Option String)) : String :=
  match body with
  | some (some a) => if a != "" && actionsLookupTruthy a then a else "log-data"
  | _ => "log-data"

/-- The structured JSON bodies the worker can answer with. -/
inductive RespBody
  /-- `null` body of the preflight response. -/
  | empty : RespBody
  /-- `{ error: 'POST only' }`. -/
  | postOnly : RespBody
  /-- `{ status: 'cooldown', action, retry_in }`. -/
  | cooldown (action : String) (retry_in : ℤ) : RespBody
  /-- `{ error: 'GITHUB_TOKEN not configured' }`. -/
  | notConfigured : RespBody
  /-- `{ status: 'triggered', action }`. -/
  | triggered (action : String) : RespBody
  /-- `{ error: 'GitHub API error', status, body }`. -/
  | githubError (status : ℕ) (body : String) : RespBody
  deriving DecidableEq

/-- An HTTP response: status code, structured body, headers. -/
structure Response where
  status : ℕ
  body : RespBody
  headers : List (String × String)
  deriving DecidableEq

/-- The cooldown store (Cache API keyed by action): action name ↦ timestamp
of the last successful trigger, in seconds. -/
def Store := String → Option ℚ

/-- What the upstream GitHub dispatch endpoint would answer if called. -/
structure Upstream where
  status : ℕ
  text : String

/-- The outcome of one handler invocation: the response, the cooldown-store
state afterwards, and whether the store was read / upstream was called. -/
structure FetchResult where
  response : Response
  store : Store
  storeRead : Bool
  upstreamCalled : Bool

/-- Headers of the preflight response (lines 23–29). -/
def preflightHeaders : List (String × String) :=
  [("Access-Control-Allow-Origin", "*"),
   ("Access-Control-Allow-Methods", "POST, OPTIONS"),
   ("Access-Control-Allow-Headers", "Content-Type")]

/-- `config.cooldown` for a resolved action (`config = ACTIONS[action]`,
line 45); the resolved action is always a key of `ACTIONS`, so the default
`0` is never used. -/
def cooldownOf (action : String) : ℚ :=
  (lookupCooldown action).getD 0

/-- Lines 59–84: the credential check, the upstream dispatch call and the
handling of its status.  Reached only after the cooldown gate. -/
def dispatchUpstream (action : String) (token : Option String) (store : Store)
    (now : ℚ) (up : Upstream) : FetchResult :=
  if tokenFalsy token then
    ⟨⟨500, .notConfigured, CORS⟩, store, true, false⟩
  else if up.status = 204 then
    ⟨⟨200, .triggered action, CORS⟩,
      fun a => if a = action then some now else store a, true, true⟩
  else
    ⟨⟨502, .githubError up.status up.text, CORS⟩, store, true, true⟩

/-- The worker's `fetch(request, env)` handler (lines 21–85). -/
def workerFetch (req : Request) (token : Option String) (store : Store)
    (now : ℚ) (up : Upstream) : FetchResult :=
  if req.method = "OPTIONS" then
    ⟨⟨200, .empty, preflightHeaders⟩, store, false, false⟩
  else if req.method ≠ "POST" then
    ⟨⟨405, .postOnly, CORS⟩, store, false, false⟩
  else
    let action := resolveAction req.body
    let cooldown := cooldownOf action
    match store action with
    | some ts =>
      if now - ts < cooldown then
        ⟨⟨429, .cooldown action ⌈cooldown - (now - ts)⌉, CORS⟩, store, true, false⟩
      else
        dispatchUpstream action token store now up
    | none => dispatchUpstream action token store now up

/-- One invocation of the handler: the request together with the ambient
inputs of that invocation (environment token, clock reading, upstream answer). -/
structure Invocation where
  req : Request
  token : Option String
  now : ℚ
  up : Upstream

/-- Sequential execution of a list of invocations against the cooldown
store, threading the store state; yields each invocation with its result. -/
def runTrace : Store → List Invocation → List (Invocation × FetchResult)
  | _, [] => []
  | store, i :: rest =>
    (i, workerFetch i.req i.token store i.now i.up) ::
      runTrace (workerFetch i.req i.token store i.now i.up).store rest

/-- The store state after sequentially executing a list of invocations. -/
def finalStore (s : Store) : List Invocation → Store
  | [] => s
  | i :: rest => finalStore (workerFetch i.req i.token s i.now i.up).store rest

/-- A cooldown store holding a single record: `t` for action `A`. -/
def recStore (A : String) (t : ℚ) : Store :=
  fun a => if a = A then some t else none

/-- The empty cooldown store (no action ever triggered). -/
def emptyStore : Store := fun _ => none

/-- A `POST log-data` invocation at time `t` whose upstream call would
fail with status 500. -/
def invFail (t : ℚ) : Invocation :=
  ⟨⟨"POST", some (some "log-data")⟩, some "tok", t, ⟨500, "ise"⟩⟩

/-- A `POST log-data` invocation at time `t` whose upstream call would
succeed with status 204. -/
def invSucc (t : ℚ) : Invocation :=
  ⟨⟨"POST", some (some "log-data")⟩, some "tok", t, ⟨204, ""⟩⟩

/-- On a `POST` request the handler reduces to the cooldown gate followed by
the dispatch phase. -/
lemma workerFetch_post (req : Request) (token : Option String) (store : Store)
    (now : ℚ) (up : Upstream) (hm : req.method = "POST") :
    workerFetch req token store now up =
      match store (resolveAction req.body) with
      | some ts =>
        if now - ts < cooldownOf (resolveAction req.body) then
          ⟨⟨429, .cooldown (resolveAction req.body)
              ⌈cooldownOf (resolveAction req.body) - (now - ts)⌉, CORS⟩,
            store, true, false⟩
        else
          dispatchUpstream (resolveAction req.body) token store now up
      | none => dispatchUpstream (resolveAction req.body) token store now up := by
  unfold workerFetch
  rw [if_neg (by rw [hm]; decide), if_neg (by rw [hm]; decide)]

/-- `POST` path, no cooldown record for the resolved action: the handler
goes straight to the dispatch phase. -/
lemma workerFetch_post_none (req : Request) (token : Option String)
    (store : Store) (now : ℚ) (up : Upstream) (hm : req.method = "POST")
    (hsa : store (resolveAction req.body) = none) :
    workerFetch req token store now up =
      dispatchUpstream (resolveAction req.body) token store now up := by
  rw [workerFetch_post req token store now up hm, hsa]

/-- `POST` path with a cooldown record `T` for the resolved action: the
handler is the cooldown gate over that record. -/
lemma workerFetch_post_some (req : Request) (token : Option String)
    (store : Store) (now : ℚ) (up : Upstream) (T : ℚ) (hm : req.method = "POST")
    (hsa : store (resolveAction req.body) = some T) :
    workerFetch req token store now up =
      if now - T < cooldownOf (resolveAction req.body) then
        ⟨⟨429, .cooldown (resolveAction req.body)
            ⌈cooldownOf (resolveAction req.body) - (now - T)⌉, CORS⟩,
          store, true, false⟩
      else
        dispatchUpstream (resolveAction req.body) token store now up := by
  rw [workerFetch_post req token store now up hm, hsa]

/-- `POST` path with no active cooldown window (no record, or an elapsed
one): the handler reaches the dispatch phase. -/
lemma workerFetch_post_elapsed (req : Request) (token : Option String)
    (store : Store) (now : ℚ) (up : Upstream) (hm : req.method = "POST")
    (hcool : ∀ T, store (resolveAction req.body) = some T →
      cooldownOf (resolveAction req.body) ≤ now - T) :
    workerFetch req token store now up =
      dispatchUpstream (resolveAction req.body) token store now up := by
  generalize hg : store (resolveAction req.body) = o
  cases o with
  | none => exact workerFetch_post_none req token store now up hm hg
  | some T =>
    rw [workerFetch_post_some req token store now up T hm hg]
    exact if_neg (not_lt.mpr (hcool T hg))

/-- With a usable token the dispatch phase always calls upstream. -/
lemma dispatchUpstream_called (action : String) (token : Option String)
    (store : Store) (now : ℚ) (up : Upstream)
    (htok : tokenFalsy token = false) :
    (dispatchUpstream action token store now up).upstreamCalled = true := by
  unfold dispatchUpstream
  rw [htok, if_neg (show ¬(false = true) by decide)]
  split <;> rfl

/-- Dispatch phase, usable token, upstream answers 204: the `triggered`
response, and the record of the action is overwritten with `now`. -/
lemma dispatchUpstream_204 (action : String) (token : Option String)
    (store : Store) (now : ℚ) (up : Upstream)
    (htok : tokenFalsy token = false) (h204 : up.status = 204) :
    dispatchUpstream action token store now up =
      ⟨⟨200, .triggered action, CORS⟩,
        fun a => if a = action then some now else store a, true, true⟩ := by
  unfold dispatchUpstream
  rw [htok, if_neg (show ¬(false = true) by decide), h204, if_pos rfl]

/-- Dispatch phase, usable token, upstream answers anything else: the 502
response carrying the upstream status and body, store untouched. -/
lemma dispatchUpstream_err (action : String) (token : Option String)
    (store : Store) (now : ℚ) (up : Upstream)
    (htok : tokenFalsy token = false) (hst : up.status ≠ 204) :
    dispatchUpstream action token store now up =
      ⟨⟨502, .githubError up.status up.text, CORS⟩, store, true, true⟩ := by
  unfold dispatchUpstream
  rw [htok, if_neg (show ¬(false = true) by decide), if_neg hst]

/-- Every response of the dispatch phase carries the `CORS` headers. -/
lemma dispatchUpstream_headers (action : String) (token : Option String)
    (store : Store) (now : ℚ) (up : Upstream) :
    (dispatchUpstream action token store now up).response.headers = CORS := by
  unfold dispatchUpstream
  repeat' split
  all_goals rfl

/-- C7: a request whose method is neither `POST` nor `OPTIONS` gets the
405 `POST only` response with the CORS headers, the store is returned
unchanged, the store is not read and upstream is not called. -/
theorem non_post_method_405 (req : Request) (token : Option String)
    (store : Store) (now : ℚ) (up : Upstream)
    (h1 : req.method ≠ "POST") (h2 : req.method ≠ "OPTIONS") :
    workerFetch req token store now up =
      ⟨⟨405, .postOnly, CORS⟩, store, false, false⟩ := by
  unfold workerFetch
  rw [if_neg h2, if_pos h1]

/-- Witness for C7: a `GET /` request in an arbitrary cooldown state. -/
theorem non_post_method_405_witness :
    workerFetch ⟨"GET", none⟩ (some "tok") (recStore "log-data" 0) 1 ⟨204, ""⟩ =
      ⟨⟨405, .postOnly, CORS⟩, recStore "log-data" 0, false, false⟩ :=
  non_post_method_405 ⟨"GET", none⟩ (some "tok") (recStore "log-data" 0) 1 ⟨204, ""⟩
    (by decide) (by decide)

/-- C8: an `OPTIONS` request is answered with the preflight headers
(allowing methods `POST, OPTIONS` and header `Content-Type`), the store is
returned unchanged, the store is not read and upstream is not called. -/
theorem options_preflight_no_effects (req : Request) (token : Option String)
    (store : Store) (now : ℚ) (up : Upstream) (h : req.method = "OPTIONS") :
    workerFetch req token store now up =
      ⟨⟨200, .empty, preflightHeaders⟩, store, false, false⟩ ∧
    ("Access-Control-Allow-Methods", "POST, OPTIONS") ∈ preflightHeaders ∧
    ("Access-Control-Allow-Headers", "Content-Type") ∈ preflightHeaders := by
  refine ⟨?_, by decide, by decide⟩
  unfold workerFetch
  rw [if_pos h]

/-- Witness for C8: a concrete `OPTIONS` request. -/
theorem options_preflight_no_effects_witness :
    workerFetch ⟨"OPTIONS", none⟩ none (recStore "boost-dhw" 5) 7 ⟨500, "x"⟩ =
      ⟨⟨200, .empty, preflightHeaders⟩, recStore "boost-dhw" 5, false, false⟩ ∧
    ("Access-Control-Allow-Methods", "POST, OPTIONS") ∈ preflightHeaders ∧
    ("Access-Control-Allow-Headers", "Content-Type") ∈ preflightHeaders :=
  options_preflight_no_effects ⟨"OPTIONS", none⟩ none (recStore "boost-dhw" 5) 7
    ⟨500, "x"⟩ (by decide)

/-- C9: every response, on every branch of the handler, carries the header
`Access-Control-Allow-Origin: *`. -/
theorem all_responses_allow_origin (req : Request) (token : Option String)
    (store : Store) (now : ℚ) (up : Upstream) :
    ("Access-Control-Allow-Origin", "*") ∈
      (workerFetch req token store now up).response.headers := by
  by_cases h1 : req.method = "OPTIONS"
  · unfold workerFetch
    rw [if_pos h1]
    simp [preflightHeaders]
  by_cases h2 : req.method = "POST"
  · rw [workerFetch_post req token store now up h2]
    cases hsa : store (resolveAction req.body) with
    | none => rw [dispatchUpstream_headers]; simp [CORS]
    | some ts =>
      dsimp only
      split
      · simp [CORS]
      · rw [dispatchUpstream_headers]; simp [CORS]
  · unfold workerFetch
    rw [if_neg h1, if_pos h2]
    simp [CORS]

/-- C1: if a cooldown record with timestamp `T` exists for the resolved
action `A` with configured cooldown `C`, a `POST` request at time `T + Δ`
with `Δ < C` gets the 429 response carrying `A` and `retry_in = ⌈C - Δ⌉`
and upstream is not called; for `Δ ≥ C` (with a usable token) the request
is forwarded upstream again. -/
theorem cooldown_window_429 (A : String) (C : ℚ) (hA : lookupCooldown A = some C)
    (req : Request) (token : Option String) (store : Store) (T Δ : ℚ) (up : Upstream)
    (hm : req.method = "POST") (hres : resolveAction req.body = A)
    (hrec : store A = some T) :
    (Δ < C →
      (workerFetch req token store (T + Δ) up).response =
        ⟨429, .cooldown A ⌈C - Δ⌉, CORS⟩ ∧
      (workerFetch req token store (T + Δ) up).upstreamCalled = false) ∧
    (C ≤ Δ → tokenFalsy token = false →
      (workerFetch req token store (T + Δ) up).upstreamCalled = true) := by
  have hcd : cooldownOf A = C := by rw [cooldownOf, hA]; rfl
  have hrec' : store (resolveAction req.body) = some T := by rw [hres]; exact hrec
  have h := workerFetch_post_some req token store (T + Δ) up T hm hrec'
  rw [hres, hcd] at h
  have hT : T + Δ - T = Δ := by ring
  rw [hT] at h
  constructor
  · intro hlt
    rw [if_pos hlt] at h
    rw [h]
    exact ⟨rfl, rfl⟩
  · intro hge htok
    rw [if_neg (not_lt.mpr hge)] at h
    rw [h]
    exact dispatchUpstream_called A token store (T + Δ) up htok

/-- Witness for C1: action `log-data` (cooldown 600) triggered at `T = 0`,
request at `Δ = 100`. -/
theorem cooldown_window_429_witness :
    (100 : ℚ) < 600 ∧
    (workerFetch ⟨"POST", some (some "log-data")⟩ (some "tok")
        (recStore "log-data" 0) (0 + 100) ⟨204, ""⟩).response =
      ⟨429, .cooldown "log-data" ⌈(600 : ℚ) - 100⌉, CORS⟩ ∧
    (workerFetch ⟨"POST", some (some "log-data")⟩ (some "tok")
        (recStore "log-data" 0) (0 + 100) ⟨204, ""⟩).upstreamCalled = false :=
  ⟨by norm_num,
    (cooldown_window_429 "log-data" 600 rfl ⟨"POST", some (some "log-data")⟩
      (some "tok") (recStore "log-data" 0) 0 100 ⟨204, ""⟩ rfl (by decide) rfl).1
      (by norm_num)⟩

/-- C3: a `POST` request whose resolved action has no active cooldown, with
a usable token, whose upstream call answers 204, gets the 200 `triggered`
response and the cooldown record of the action is set to `now`. -/
theorem success_triggers_and_writes (req : Request) (token : Option String)
    (store : Store) (now : ℚ) (up : Upstream)
    (hm : req.method = "POST")
    (hcool : ∀ T, store (resolveAction req.body) = some T →
      cooldownOf (resolveAction req.body) ≤ now - T)
    (htok : tokenFalsy token = false)
    (h204 : up.status = 204) :
    (workerFetch req token store now up).response =
      ⟨200, .triggered (resolveAction req.body), CORS⟩ ∧
    (workerFetch req token store now up).store (resolveAction req.body) = some now := by
  have h := workerFetch_post_elapsed req token store now up hm hcool
  rw [dispatchUpstream_204 (resolveAction req.body) token store now up htok h204] at h
  rw [h]
  exact ⟨rfl, by simp⟩

/-- Witness for C3: first-ever `boost-dhw` trigger at time 5 succeeds. -/
theorem success_triggers_and_writes_witness :
    (workerFetch ⟨"POST", some (some "boost-dhw")⟩ (some "tok") emptyStore 5
        ⟨204, ""⟩).response = ⟨200, .triggered "boost-dhw", CORS⟩ ∧
    (workerFetch ⟨"POST", some (some "boost-dhw")⟩ (some "tok") emptyStore 5
        ⟨204, ""⟩).store "boost-dhw" = some 5 :=
  success_triggers_and_writes ⟨"POST", some (some "boost-dhw")⟩ (some "tok")
    emptyStore 5 ⟨204, ""⟩ rfl (fun T hT => by simp [emptyStore] at hT) rfl rfl

/-- C4: when the upstream call answers anything other than 204, the handler
returns 502 carrying the upstream status and body verbatim, and the
cooldown store is left entirely unchanged. -/
theorem upstream_error_502 (req : Request) (token : Option String)
    (store : Store) (now : ℚ) (up : Upstream)
    (hm : req.method = "POST")
    (hcool : ∀ T, store (resolveAction req.body) = some T →
      cooldownOf (resolveAction req.body) ≤ now - T)
    (htok : tokenFalsy token = false)
    (hst : up.status ≠ 204) :
    (workerFetch req token store now up).response =
      ⟨502, .githubError up.status up.text, CORS⟩ ∧
    (workerFetch req token store now up).store = store := by
  have h := workerFetch_post_elapsed req token store now up hm hcool
  rw [dispatchUpstream_err (resolveAction req.body) token store now up htok hst] at h
  rw [h]
  exact ⟨rfl, rfl⟩

/-- Witness for C4: upstream answers `500 "ise"`; the proxy answers 502
carrying both and the (empty) store is unchanged. -/
theorem upstream_error_502_witness :
    (workerFetch ⟨"POST", none⟩ (some "tok") emptyStore 3 ⟨500, "ise"⟩).response =
      ⟨502, .githubError 500 "ise", CORS⟩ ∧
    (workerFetch ⟨"POST", none⟩ (some "tok") emptyStore 3 ⟨500, "ise"⟩).store =
      emptyStore :=
  upstream_error_502 ⟨"POST", none⟩ (some "tok") emptyStore 3 ⟨500, "ise"⟩ rfl
    (fun T hT => by simp [emptyStore] at hT) rfl (by decide)

/-- Counterexample to C5 as stated: with `GITHUB_TOKEN` unset but an active
cooldown record for the resolved action, a `POST` request is answered with
429, not with the 500 configuration error. -/
theorem missing_token_counterexample :
    tokenFalsy none = true ∧
    (workerFetch ⟨"POST", none⟩ none (recStore "log-data" 0) 1 ⟨204, ""⟩).response.status
      = 429 ∧
    (workerFetch ⟨"POST", none⟩ none (recStore "log-data" 0) 1 ⟨204, ""⟩).response.status
      ≠ 500 := by
  have hrec : recStore "log-data" 0 (resolveAction (Request.mk "POST" none).body) =
      some 0 := rfl
  have h := workerFetch_post_some ⟨"POST", none⟩ none (recStore "log-data" 0) 1
    ⟨204, ""⟩ 0 rfl hrec
  rw [show cooldownOf (resolveAction (Request.mk "POST" none).body) = (600 : ℚ)
      from rfl] at h
  rw [if_pos (show (1 : ℚ) - 0 < 600 by norm_num)] at h
  exact ⟨rfl, by rw [h], by rw [h]; decide⟩

/-- C5 (amended): with `GITHUB_TOKEN` unset, a `POST` request never calls
upstream, and whenever its resolved action is not inside an active cooldown
window it gets the 500 configuration-error response (store unchanged). -/
theorem missing_token_500 (req : Request) (store : Store) (now : ℚ)
    (up : Upstream) (hm : req.method = "POST") :
    (workerFetch req none store now up).upstreamCalled = false ∧
    ((∀ T, store (resolveAction req.body) = some T →
        cooldownOf (resolveAction req.body) ≤ now - T) →
      workerFetch req none store now up =
        ⟨⟨500, .notConfigured, CORS⟩, store, true, false⟩) := by
  have hd : dispatchUpstream (resolveAction req.body) none store now up =
      ⟨⟨500, .notConfigured, CORS⟩, store, true, false⟩ := rfl
  constructor
  · generalize hg : store (resolveAction req.body) = o
    cases o with
    | none =>
      rw [workerFetch_post_none req none store now up hm hg, hd]
    | some T =>
      rw [workerFetch_post_some req none store now up T hm hg]
      split
      · rfl
      · rw [hd]
  · intro hcool
    rw [workerFetch_post_elapsed req none store now up hm hcool, hd]

/-- Witness for C5 (amended): empty store, no token, `POST` with no body. -/
theorem missing_token_500_witness :
    (workerFetch ⟨"POST", none⟩ none emptyStore 0 ⟨204, ""⟩).upstreamCalled = false ∧
    workerFetch ⟨"POST", none⟩ none emptyStore 0 ⟨204, ""⟩ =
      ⟨⟨500, .notConfigured, CORS⟩, emptyStore, true, false⟩ :=
  ⟨(missing_token_500 ⟨"POST", none⟩ emptyStore 0 ⟨204, ""⟩ rfl).1,
   (missing_token_500 ⟨"POST", none⟩ emptyStore 0 ⟨204, ""⟩ rfl).2
     (fun T hT => by simp [emptyStore] at hT)⟩

/-- C6 fails on the code: under ECMAScript property lookup the body
`{"action": "toString"}` names an action outside the configured set
(`lookupCooldown` finds nothing), yet the code accepts it as the action —
`ACTIONS['toString']` is the inherited, truthy `Object.prototype.toString`
— instead of resolving to the default `log-data`, which is what the
intended resolution (`resolveAction`, matching the spec) produces. -/
theorem prototype_action_not_defaulted :
    lookupCooldown "toString" = none ∧
    resolveActionJS (some (some "toString")) = "toString" ∧
    resolveActionJS (some (some "toString")) ≠ "log-data" ∧
    resolveAction (some (some "toString")) = "log-data" :=
  ⟨rfl, rfl, by decide, rfl⟩

/-- C10: for a `POST` request whose resolved action has an active cooldown
record, the outcome is independent of the token and of the upstream oracle
(the credential is never inspected), the response is the 429 cooldown
result, and upstream is not called — even with no token configured. -/
theorem cooldown_precedes_credential (req : Request) (store : Store) (now T : ℚ)
    (hm : req.method = "POST")
    (hrec : store (resolveAction req.body) = some T)
    (hact : now - T < cooldownOf (resolveAction req.body)) :
    (∀ token token' up up',
      workerFetch req token store now up = workerFetch req token' store now up') ∧
    (∀ token up,
      (workerFetch req token store now up).response =
        ⟨429, .cooldown (resolveAction req.body)
          ⌈cooldownOf (resolveAction req.body) - (now - T)⌉, CORS⟩ ∧
      (workerFetch req token store now up).upstreamCalled = false) := by
  have key : ∀ token up, workerFetch req token store now up =
      ⟨⟨429, .cooldown (resolveAction req.body)
          ⌈cooldownOf (resolveAction req.body) - (now - T)⌉, CORS⟩,
        store, true, false⟩ := by
    intro token up
    have h := workerFetch_post_some req token store now up T hm hrec
    rw [if_pos hact] at h
    exact h
  exact ⟨fun token token' up up' => (key token up).trans (key token' up').symm,
    fun token up => by rw [key token up]; exact ⟨rfl, rfl⟩⟩

/-- Witness for C10: `log-data` in cooldown (record at 0, request at 1),
token unset: 429, upstream not called. -/
theorem cooldown_precedes_credential_witness :
    (workerFetch ⟨"POST", none⟩ none (recStore "log-data" 0) 1 ⟨204, ""⟩).response =
      ⟨429, .cooldown "log-data" ⌈cooldownOf "log-data" - ((1 : ℚ) - 0)⌉, CORS⟩ ∧
    (workerFetch ⟨"POST", none⟩ none (recStore "log-data" 0) 1 ⟨204, ""⟩).upstreamCalled
      = false :=
  (cooldown_precedes_credential ⟨"POST", none⟩ (recStore "log-data" 0) 1 0 rfl
    rfl (show (1 : ℚ) - 0 < 600 by norm_num)).2 none ⟨204, ""⟩

/-- Splitting a sequential execution: the store after `l1 ++ l2`. -/
lemma finalStore_append (s : Store) (l1 l2 : List Invocation) :
    finalStore s (l1 ++ l2) = finalStore (finalStore s l1) l2 := by
  induction l1 generalizing s with
  | nil => rfl
  | cons i rest ih => rw [List.cons_append, finalStore, finalStore, ih]

/-- The dispatch phase either leaves the record of `A` as it was or
overwrites it with `now`. -/
lemma dispatchUpstream_store_cases (action : String) (token : Option String)
    (s : Store) (now : ℚ) (up : Upstream) (A : String) :
    (dispatchUpstream action token s now up).store A = s A ∨
    (dispatchUpstream action token s now up).store A = some now := by
  unfold dispatchUpstream
  split
  · exact Or.inl rfl
  split
  · dsimp only
    by_cases hA : A = action
    · rw [if_pos hA]
      exact Or.inr rfl
    · rw [if_neg hA]
      exact Or.inl rfl
  · exact Or.inl rfl

/-- One invocation either leaves the record of `A` as it was or overwrites
it with that invocation's clock reading. -/
lemma step_record (A : String) (i : Invocation) (s : Store) :
    (workerFetch i.req i.token s i.now i.up).store A = s A ∨
    (workerFetch i.req i.token s i.now i.up).store A = some i.now := by
  by_cases h2 : i.req.method = "POST"
  · generalize hg : s (resolveAction i.req.body) = o
    cases o with
    | none =>
      rw [workerFetch_post_none i.req i.token s i.now i.up h2 hg]
      exact dispatchUpstream_store_cases (resolveAction i.req.body) i.token s
        i.now i.up A
    | some T =>
      rw [workerFetch_post_some i.req i.token s i.now i.up T h2 hg]
      split
      · exact Or.inl rfl
      · exact dispatchUpstream_store_cases (resolveAction i.req.body) i.token s
          i.now i.up A
  · unfold workerFetch
    by_cases h1 : i.req.method = "OPTIONS"
    · rw [if_pos h1]
      exact Or.inl rfl
    · rw [if_neg h1, if_pos h2]
      exact Or.inl rfl

/-- An invocation that actually calls upstream for an action with an
existing record `t'` can only do so once the cooldown has elapsed. -/
lemma forward_requires_elapsed (A : String) (i : Invocation) (s : Store) (t' : ℚ)
    (hrec : s A = some t')
    (hfwd : (workerFetch i.req i.token s i.now i.up).upstreamCalled = true)
    (hA : resolveAction i.req.body = A) :
    cooldownOf A ≤ i.now - t' := by
  by_cases h2 : i.req.method = "POST"
  · have hrec' : s (resolveAction i.req.body) = some t' := by rw [hA]; exact hrec
    rw [workerFetch_post_some i.req i.token s i.now i.up t' h2 hrec', hA] at hfwd
    by_contra hlt
    push_neg at hlt
    rw [if_pos hlt] at hfwd
    simp at hfwd
  · unfold workerFetch at hfwd
    by_cases h1 : i.req.method = "OPTIONS"
    · rw [if_pos h1] at hfwd
      simp at hfwd
    · rw [if_neg h1, if_pos h2] at hfwd
      simp at hfwd

/-- An invocation that calls upstream with upstream answering 204 writes
the record of its resolved action with its own clock reading. -/
lemma success_record (i : Invocation) (s : Store)
    (h204 : i.up.status = 204)
    (hfwd : (workerFetch i.req i.token s i.now i.up).upstreamCalled = true) :
    (workerFetch i.req i.token s i.now i.up).store (resolveAction i.req.body) =
      some i.now := by
  by_cases h2 : i.req.method = "POST"
  · have htok : tokenFalsy i.token = false := by
      by_contra hbad
      rw [Bool.not_eq_false] at hbad
      have hd : ∀ o, (if tokenFalsy i.token = true then
          (⟨⟨500, .notConfigured, CORS⟩, s, true, false⟩ : FetchResult) else o) =
          ⟨⟨500, .notConfigured, CORS⟩, s, true, false⟩ := fun o => if_pos hbad
      generalize hg : s (resolveAction i.req.body) = o at hfwd
      cases o with
      | none =>
        rw [workerFetch_post_none i.req i.token s i.now i.up h2 hg] at hfwd
        unfold dispatchUpstream at hfwd
        rw [hd] at hfwd
        simp at hfwd
      | some T =>
        rw [workerFetch_post_some i.req i.token s i.now i.up T h2 hg] at hfwd
        by_cases hlt : i.now - T < cooldownOf (resolveAction i.req.body)
        · rw [if_pos hlt] at hfwd
          simp at hfwd
        · rw [if_neg hlt] at hfwd
          unfold dispatchUpstream at hfwd
          rw [hd] at hfwd
          simp at hfwd
    have hel : ∀ T, s (resolveAction i.req.body) = some T →
        cooldownOf (resolveAction i.req.body) ≤ i.now - T :=
      fun T hT => forward_requires_elapsed (resolveAction i.req.body) i s T hT hfwd rfl
    rw [workerFetch_post_elapsed i.req i.token s i.now i.up h2 hel,
      dispatchUpstream_204 (resolveAction i.req.body) i.token s i.now i.up htok h204]
    simp
  · unfold workerFetch at hfwd
    by_cases h1 : i.req.method = "OPTIONS"
    · rw [if_pos h1] at hfwd
      simp at hfwd
    · rw [if_neg h1, if_pos h2] at hfwd
      simp at hfwd

/-- Once a record at `t' ≥ t` exists for `A` and every invocation of the
trace reads a clock at or after `t`, every invocation of the trace that
calls upstream for `A` does so at or after `t + cooldownOf A`. -/
lemma forwarded_after_record (A : String) (t : ℚ) :
    ∀ (trace : List Invocation), (∀ j ∈ trace, t ≤ j.now) →
    ∀ (store0 : Store) (t' : ℚ), store0 A = some t' → t ≤ t' →
    ∀ e ∈ runTrace store0 trace,
      e.2.upstreamCalled = true → resolveAction e.1.req.body = A →
      t + cooldownOf A ≤ e.1.now := by
  intro trace
  induction trace with
  | nil =>
    intro _ store0 t' _ _ e he
    rw [runTrace] at he
    exact absurd he (List.not_mem_nil e)
  | cons i rest ih =>
    intro hmono store0 t' hrec ht e he hfwd hA
    rw [runTrace] at he
    rcases List.mem_cons.mp he with heq | hmem
    · subst heq
      dsimp only at hfwd hA ⊢
      have helapsed := forward_requires_elapsed A i store0 t' hrec hfwd hA
      linarith
    · rcases step_record A i store0 with h | h
      · exact ih (fun j hj => hmono j (List.mem_cons_of_mem i hj))
          (workerFetch i.req i.token store0 i.now i.up).store t'
          (h.trans hrec) ht e hmem hfwd hA
      · exact ih (fun j hj => hmono j (List.mem_cons_of_mem i hj))
          (workerFetch i.req i.token store0 i.now i.up).store i.now
          h (hmono i (List.mem_cons_self i rest)) e hmem hfwd hA

/-- Counterexample to C2 as stated: two `POST` requests for `log-data`
(cooldown 600) one second apart are both forwarded upstream, because the
first forward fails upstream (status 500) and therefore writes no record. -/
theorem forward_spacing_counterexample :
    lookupCooldown "log-data" = some 600 ∧
    resolveAction (invFail 0).req.body = "log-data" ∧
    resolveAction (invFail 1).req.body = "log-data" ∧
    (runTrace emptyStore [invFail 0, invFail 1]).map (fun e => e.2.upstreamCalled) =
      [true, true] ∧
    (invFail 1).now - (invFail 0).now < 600 := by
  refine ⟨rfl, rfl, rfl, rfl, ?_⟩
  show (1 : ℚ) - 0 < 600
  norm_num

/-- C2 (amended): in a sequential execution with a reliable store, once an
invocation for action `A` is forwarded upstream and succeeds (204) at time
`e.now`, every later invocation forwarded upstream for `A` — the clock
never running backwards past `e.now` — starts at least `cooldownOf A`
seconds after `e.now`.  (As the counterexample shows, forwards whose
upstream call fails write no record and do not constrain later forwards.) -/
theorem forward_spacing_after_success (store0 : Store) (pre : List Invocation)
    (e : Invocation) (post : List Invocation) (A : String)
    (hA : resolveAction e.req.body = A)
    (h204 : e.up.status = 204)
    (hfwd : (workerFetch e.req e.token (finalStore store0 pre) e.now e.up).upstreamCalled
      = true)
    (hmono : ∀ j ∈ post, e.now ≤ j.now)
    (f : Invocation × FetchResult)
    (hf : f ∈ runTrace (finalStore store0 (pre ++ [e])) post)
    (hffwd : f.2.upstreamCalled = true)
    (hfA : resolveAction f.1.req.body = A) :
    e.now + cooldownOf A ≤ f.1.now := by
  have hstep : finalStore store0 (pre ++ [e]) =
      (workerFetch e.req e.token (finalStore store0 pre) e.now e.up).store := by
    rw [finalStore_append]
    rfl
  have hrec : finalStore store0 (pre ++ [e]) A = some e.now := by
    rw [hstep, ← hA]
    exact success_record e (finalStore store0 pre) h204 hfwd
  exact forwarded_after_record A e.now post hmono _ e.now hrec le_rfl f hf hffwd hfA

/-- Witness for C2 (amended): `log-data` succeeds at time 0; the next
forwarded request in the trace runs at time 700 ≥ 0 + 600. -/
theorem forward_spacing_after_success_witness :
    (invSucc 0).now + cooldownOf "log-data" ≤ (invSucc 700).now := by
  have hrec1 : finalStore emptyStore ([] ++ [invSucc 0])
      (resolveAction (invSucc 700).req.body) = some 0 := rfl
  have h2 := workerFetch_post_some (invSucc 700).req (invSucc 700).token
    (finalStore emptyStore ([] ++ [invSucc 0])) (invSucc 700).now (invSucc 700).up
    0 rfl hrec1
  rw [show cooldownOf (resolveAction (invSucc 700).req.body) = (600 : ℚ) from rfl] at h2
  rw [if_neg (show ¬((invSucc 700).now - 0 < 600) by
    show ¬((700 : ℚ) - 0 < 600); norm_num)] at h2
  exact forward_spacing_after_success emptyStore [] (invSucc 0) [invSucc 700]
    "log-data" rfl rfl rfl
    (by intro j hj; rw [List.mem_singleton] at hj; subst hj
        show (0 : ℚ) ≤ 700; norm_num)
    (invSucc 700, workerFetch (invSucc 700).req (invSucc 700).token
      (finalStore emptyStore ([] ++ [invSucc 0])) (invSucc 700).now (invSucc 700).up)
    (by rw [runTrace]; exact List.mem_cons_self _ _)
    (by rw [h2]
        exact dispatchUpstream_called (resolveAction (invSucc 700).req.body)
          (invSucc 700).token (finalStore emptyStore ([] ++ [invSucc 0]))
          (invSucc 700).now (invSucc 700).up rfl)
    rfl

end Vaillant
